import Mathlib

/-!
Shallow embedding of the typed-container / identity examples of the
repository (src/generics.ts, src/unnamed/part_004, src/unnamed/part_007,
src/functions.ts and its copy src/unnamed/part_006).

Conventions of the embedding:
* a TypeScript type variable becomes a Lean type parameter;
* the dynamic `any` type is embedded as the runtime-value type `JSValue`
  (numbers, strings, booleans, `undefined`, arrays);
* a field that JavaScript leaves uninitialised (value `undefined`) is
  embedded as an `Option` field holding `none`; reading such a field is a
  total operation returning that sentinel, exactly as in JavaScript;
* mutation (`box.contents = v`, `this.key = key`) is embedded as returning
  the updated record; aliasing across several container instances is
  embedded by a store, a list of boxes updated at an index;
* template-string display (`console.log` of `Key = ${this.key} ...`) is
  embedded as the produced `String`, with the JavaScript stringification of
  the generic payloads passed in as functions and `undefined` rendered as
  the string "undefined".
-/

/-- Runtime values of the dynamically-typed `any` escape hatch
(src/generics.ts uses `any` in `anyIdentity`, part_004 in the untyped
`setContents` overload implementation). -/
inductive JSValue where
  | num (n : Int)
  | str (s : String)
  | bool (b : Bool)
  | undef
  | arr (elems : List JSValue)

/-- Runtime type tags of `JSValue`, the observable "type of the stored
value" at the dynamic level. -/
inductive JSTag where
  | num
  | str
  | bool
  | undef
  | arr
deriving DecidableEq

/-- Tag of a runtime value. -/
def JSValue.tag : JSValue → JSTag
  | .num _ => .num
  | .str _ => .str
  | .bool _ => .bool
  | .undef => .undef
  | .arr _ => .arr

/-- Embedding of `numberIdentity` (src/generics.ts lines 33 to 35):
`function numberIdentity(arg: number): number { return arg; }`. -/
def numberIdentity (arg : Int) : Int :=
  arg

/-- Embedding of `anyIdentity` (src/generics.ts lines 38 to 40):
`function anyIdentity(arg: any): any { return arg; }`; the `any` type is
embedded as `JSValue`. -/
def anyIdentity (arg : JSValue) : JSValue :=
  arg

/-- Embedding of `genericIdentity` (src/generics.ts lines 58 to 60):
`function genericIdentity<Type>(arg: Type): Type { return arg; }`. -/
def genericIdentity {T : Type} (arg : T) : T :=
  arg

/-- Embedding of the interface `GenericBox<Type>` of part_004 lines 531
to 533: an object with a single field `contents : Type`. -/
structure GenericBox (T : Type) where
  contents : T

/-- Embedding of the generic `setContents` of part_004 lines 581 to 583:
`function setContents<Type>(box: GenericBox<Type>, newContents: Type) {
box.contents = newContents; }`; the mutation is embedded as returning the
updated box. -/
def setContents {T : Type} (box : GenericBox T) (newContents : T) : GenericBox T :=
  { box with contents := newContents }

/-- Embedding of `boxA` (part_004 lines 553 to 554):
`let boxA: GenericBox<string> = { contents: "hello" };`. -/
def boxA : GenericBox String :=
  { contents := "hello" }

/-- Store of dynamically-typed boxes: several `GenericBox` instances
addressed by index, used to embed the aliasing side of the mutation
`box.contents = newContents` of part_004 lines 581 to 583. -/
def setContentsAt (boxes : List (GenericBox JSValue)) (i : Nat) (v : JSValue) :
    List (GenericBox JSValue) :=
  match boxes[i]? with
  | some box => boxes.set i (setContents box v)
  | none => boxes

/-- Embedding of the class `GenericNumber<NumType>` of part_007 lines 305
to 308: two declared but uninitialised fields, `zeroValue: NumType` and
`add: (x, y) => NumType`; before assignment each holds `undefined`,
embedded as `none`. -/
structure GenericNumber (NumType : Type) where
  zeroValue : Option NumType
  add : Option (NumType → NumType → NumType)

/-- A freshly constructed `new GenericNumber<...>()` (part_007 line 310):
no constructor body, both fields uninitialised. -/
def GenericNumber.new {N : Type} : GenericNumber N :=
  { zeroValue := none, add := none }

/-- Embedding of the class `KeyValuePair<T, U>` of part_007 lines 360 to
372: two private fields `key: T` and `val: U`, uninitialised until
`setKeyValue` runs, hence `Option` fields. -/
structure KeyValuePair (T U : Type) where
  key : Option T
  val : Option U

/-- A freshly constructed `new KeyValuePair<...>()` (part_007 lines 374
and 378): no constructor body, both fields uninitialised. -/
def KeyValuePair.new {T U : Type} : KeyValuePair T U :=
  { key := none, val := none }

/-- Embedding of `KeyValuePair.setKeyValue` (part_007 lines 364 to 367):
`setKeyValue(key: T, val: U): void { this.key = key; this.val = val; }`. -/
def KeyValuePair.setKeyValue {T U : Type} (p : KeyValuePair T U) (key : T) (val : U) :
    KeyValuePair T U :=
  { p with key := some key, val := some val }

/-- JavaScript stringification of a possibly-uninitialised field inside a
template string: an unset field prints as "undefined", a set one by the
stringification of its payload. -/
def jsShow {T : Type} (f : T → String) : Option T → String
  | none => "undefined"
  | some x => f x

/-- Embedding of `KeyValuePair.display` (part_007 lines 369 to 371):
`display(): void { console.log(`Key = ${this.key}, Val = ${this.val}`); }`;
embedded as the printed string, with the stringifications of `T` and `U`
passed in. -/
def KeyValuePair.display {T U : Type} (p : KeyValuePair T U)
    (f : T → String) (g : U → String) : String :=
  "Key = " ++ jsShow f p.key ++ ", Val = " ++ jsShow g p.val

/-- Embedding of `create` (part_007 lines 499 to 501):
`function create<Type>(c: { new(): Type }): Type { return new c(); }`;
the zero-argument constructor becomes a function out of `Unit`. -/
def create {T : Type} (c : Unit → T) : T :=
  c ()

/-- Embedding of the class `Duck` (part_007 lines 503 to 509): one field
`quack`, set to "quack!" by the constructor. -/
structure Duck where
  quack : String

/-- The `Duck` constructor (part_007 lines 506 to 508). -/
def Duck.new : Duck :=
  { quack := "quack!" }

/-- Embedding of `duck1` (part_007 line 511): `let duck1 = create<Duck>(Duck);`. -/
def duck1 : Duck :=
  create fun _ => Duck.new

/-- Embedding of `firstElementTyped` (src/functions.ts lines 182 to 184,
copy in part_006): `function firstElementTyped<Type>(arr: Type[]) {
return arr[0]; }`; the out-of-bounds read `arr[0]` yields `undefined` in
JavaScript, embedded as `none`. -/
def firstElementTyped {T : Type} (arr : List T) : Option T :=
  arr[0]?

/-- Embedding of `longest` (src/functions.ts lines 225 to 231, copy in
part_006): `function longest<Type extends { length: number }>(a, b) {
if (a.length >= b.length) { return a; } else { return b; } }`; the
structural constraint `{ length: number }` is embedded as an explicit
numeric length function on `T`. -/
def longest {T : Type} (length : T → Int) (a b : T) : T :=
  if length a ≥ length b then a else b

/-- Auxiliary invariant lemma: a property that holds of the current
contents of a box and of every value later written by `setContents` holds
of the contents after any sequence of writes. -/
theorem setContents_foldl_invariant (P : JSValue → Prop) (ops : List JSValue) :
    ∀ box : GenericBox JSValue, P box.contents → (∀ v ∈ ops, P v) →
      P (List.foldl setContents box ops).contents := by
  induction ops with
  | nil =>
      intro box hbox _
      simpa using hbox
  | cons v rest ih =>
      intro box _ hops
      have hv : P v := hops v (by simp)
      have hrest : ∀ w ∈ rest, P w := fun w hw => hops w (by simp [hw])
      simpa [List.foldl] using ih (setContents box v) (by simpa [setContents] using hv) hrest

/-- C1: for every value v of any type T, `genericIdentity v` equals v; the
result lives at the same type T by the very typing of the embedded
function. -/
theorem genericIdentity_returns_argument : ∀ (T : Type) (v : T), genericIdentity v = v :=
  fun _ _ => rfl

/-- C2: creating a container with initial value v and reading it back
returns exactly v: a GenericBox built from contents v reads back v, the
concrete `boxA` reads back "hello", and a fresh KeyValuePair after
`setKeyValue k u` displays exactly the stored k and u. -/
theorem container_create_then_get :
    (∀ (T : Type) (v : T), (GenericBox.mk v).contents = v)
    ∧ boxA.contents = "hello"
    ∧ (∀ (T U : Type) (f : T → String) (g : U → String) (k : T) (u : U),
        (KeyValuePair.new.setKeyValue k u).display f g = "Key = " ++ f k ++ ", Val = " ++ g u) :=
  ⟨fun _ _ => rfl, rfl, fun _ _ _ _ _ _ => rfl⟩

/-- C3 counterexample: reading a freshly constructed container does not
fail; it produces a value. The fresh KeyValuePair displays the string
"Key = undefined, Val = undefined" and its field reads return the
`undefined` sentinel (`none`), and the fresh GenericNumber reads
`undefined` for `zeroValue`; the embedded source has no error path at all,
contradicting the claimed signalled uninitialised-access error. -/
theorem fresh_read_produces_value_cex :
    (KeyValuePair.new : KeyValuePair Int String).display toString id
        = "Key = undefined, Val = undefined"
    ∧ (KeyValuePair.new : KeyValuePair Int String).key = none
    ∧ (GenericNumber.new : GenericNumber Int).zeroValue = none :=
  ⟨rfl, rfl, rfl⟩

/-- C3 amended: calling a read on a freshly constructed container on which
no value has ever been set does not signal an error; it totally returns
the JavaScript `undefined` sentinel: both fields of a fresh KeyValuePair
read `none`, its display prints "Key = undefined, Val = undefined", and a
fresh GenericNumber reads `none` for both fields. -/
theorem fresh_read_yields_undefined_sentinel :
    ∀ (T U : Type) (f : T → String) (g : U → String),
      (KeyValuePair.new : KeyValuePair T U).display f g = "Key = undefined, Val = undefined"
      ∧ (KeyValuePair.new : KeyValuePair T U).key = none
      ∧ (KeyValuePair.new : KeyValuePair T U).val = none
      ∧ ∀ N : Type, (GenericNumber.new : GenericNumber N).zeroValue = none
          ∧ (GenericNumber.new : GenericNumber N).add = none :=
  fun _ _ _ _ => ⟨rfl, rfl, rfl, fun _ => ⟨rfl, rfl⟩⟩

/-- C4: last write wins: after `setContents box v2` the contents read back
v2 and, whenever the prior value differed from v2, not that prior value;
similarly `setKeyValue k u` stores exactly k and u. -/
theorem set_then_get_last_write_wins :
    ∀ (T : Type) (box : GenericBox T) (v2 : T),
      (setContents box v2).contents = v2
      ∧ (∀ v1 : T, v1 ≠ v2 → (setContents box v2).contents ≠ v1)
      ∧ ∀ (U V : Type) (p : KeyValuePair U V) (k : U) (u : V),
          (p.setKeyValue k u).key = some k ∧ (p.setKeyValue k u).val = some u :=
  fun _ _ _ =>
    ⟨rfl, fun _ h hc => h (hc ▸ rfl), fun _ _ _ _ _ => ⟨rfl, rfl⟩⟩

/-- C4 witness: at the concrete box holding 1, writing 2 reads back 2 and
not the prior 1. -/
theorem set_then_get_last_write_wins_witness :
    (setContents (GenericBox.mk (1 : Int)) 2).contents = 2
    ∧ (setContents (GenericBox.mk (1 : Int)) 2).contents ≠ 1 :=
  ⟨(set_then_get_last_write_wins Int (GenericBox.mk 1) 2).1,
   (set_then_get_last_write_wins Int (GenericBox.mk 1) 2).2.1 1 (by decide)⟩

/-- C5: the runtime type tag bound when the container is created is the
tag observed at every subsequent read: if the initial contents carry tag t
and every value ever written by `setContents` carries tag t, then after
any sequence of writes the contents still carry tag t; at the typed level
the invariant is intrinsic, since `setContents` sends a GenericBox T and a
T to a GenericBox T. -/
theorem container_type_tag_invariant :
    ∀ (t : JSTag) (init : JSValue) (ops : List JSValue),
      init.tag = t → (∀ v ∈ ops, v.tag = t) →
      (List.foldl setContents (GenericBox.mk init) ops).contents.tag = t :=
  fun t init ops hinit hops =>
    setContents_foldl_invariant (fun w => w.tag = t) ops (GenericBox.mk init) hinit hops

/-- C5 witness: starting from the number 1 and writing the numbers 2 and
3, every read observes the number tag. -/
theorem container_type_tag_invariant_witness :
    (List.foldl setContents (GenericBox.mk (JSValue.num 1))
      [JSValue.num 2, JSValue.num 3]).contents.tag = JSTag.num :=
  container_type_tag_invariant JSTag.num (JSValue.num 1) [JSValue.num 2, JSValue.num 3]
    rfl (by intro v hv; simp only [List.mem_cons, List.not_mem_nil, or_false] at hv
            rcases hv with h | h <;> subst h <;> rfl)

/-- C6: the three identity functions agree at runtime: genericIdentity and
anyIdentity agree on every dynamic value, numberIdentity agrees with
genericIdentity on every number, and embedding a number into the dynamic
values commutes with the identities; all three are the pass-through. -/
theorem identity_functions_extensionally_equal :
    (∀ v : JSValue, genericIdentity v = anyIdentity v)
    ∧ (∀ n : Int, numberIdentity n = genericIdentity n)
    ∧ (∀ n : Int, anyIdentity (JSValue.num n) = JSValue.num (numberIdentity n)) :=
  ⟨fun _ => rfl, fun _ => rfl, fun _ => rfl⟩

/-- C7: a write is framed to the written container: in a store of boxes,
`setContentsAt boxes i v` leaves the box at every other index j untouched
and replaces only the contents slot of the box at i; `setKeyValue` on a
KeyValuePair produces exactly the record whose two slots are the written
values, touching nothing else. -/
theorem setContents_frame :
    ∀ (boxes : List (GenericBox JSValue)) (i : Nat) (v : JSValue),
      (∀ j : Nat, j ≠ i → (setContentsAt boxes i v)[j]? = boxes[j]?)
      ∧ (∀ box : GenericBox JSValue, boxes[i]? = some box →
          (setContentsAt boxes i v)[i]? = some (setContents box v))
      ∧ ∀ (T U : Type) (p : KeyValuePair T U) (k : T) (u : U),
          p.setKeyValue k u = { key := some k, val := some u } := by
  intro boxes i v
  refine ⟨?_, ?_, fun _ _ _ _ _ => rfl⟩
  · intro j hj
    unfold setContentsAt
    match h : boxes[i]? with
    | some box => exact List.getElem?_set_ne (fun he => hj he.symm)
    | none => rfl
  · intro box hbox
    unfold setContentsAt
    rw [hbox]
    exact List.getElem?_set_eq_of_lt _ ((List.getElem?_eq_some_iff).mp hbox).1

/-- C7 witness: in the two-box store holding 1 and 2, writing 9 at index 0
leaves index 1 reading box 2 and makes index 0 read box 9. -/
theorem setContents_frame_witness :
    (setContentsAt [GenericBox.mk (JSValue.num 1), GenericBox.mk (JSValue.num 2)] 0
        (JSValue.num 9))[1]?
      = some (GenericBox.mk (JSValue.num 2))
    ∧ (setContentsAt [GenericBox.mk (JSValue.num 1), GenericBox.mk (JSValue.num 2)] 0
        (JSValue.num 9))[0]?
      = some (setContents (GenericBox.mk (JSValue.num 1)) (JSValue.num 9)) :=
  ⟨(setContents_frame [GenericBox.mk (JSValue.num 1), GenericBox.mk (JSValue.num 2)] 0
      (JSValue.num 9)).1 1 (by decide),
   (setContents_frame [GenericBox.mk (JSValue.num 1), GenericBox.mk (JSValue.num 2)] 0
      (JSValue.num 9)).2.1 (GenericBox.mk (JSValue.num 1)) rfl⟩

/-- C8: creation is total and constraint-free: for every type T the
factory `create` applied to any constructor of T returns exactly the
constructed value, the concrete `duck1` is the constructed Duck, and
building a GenericBox from any initial value of any type yields the
container holding exactly that value at that type. -/
theorem create_total_and_binds_type :
    (∀ (T : Type) (c : Unit → T), create c = c ())
    ∧ duck1 = { quack := "quack!" }
    ∧ (∀ (T : Type) (v : T), (GenericBox.mk v).contents = v ∧ GenericBox.mk v = { contents := v }) :=
  ⟨fun _ _ => rfl, rfl, fun _ _ => ⟨rfl, rfl⟩⟩

/-- C9: firstElementTyped of the empty array is the `undefined` result
(`none`), with no error raised, and on any non-empty array it is the
element at index 0. -/
theorem firstElementTyped_empty_and_cons :
    (∀ T : Type, firstElementTyped ([] : List T) = none)
    ∧ (∀ (T : Type) (x : T) (xs : List T), firstElementTyped (x :: xs) = some x) :=
  ⟨fun _ => rfl, fun _ x xs => by simp [firstElementTyped]⟩

/-- C10: longest favours its first argument on ties and otherwise returns
the argument of strictly greater length. -/
theorem longest_ties_favor_first :
    ∀ (T : Type) (len : T → Int) (a b : T),
      (len a = len b → longest len a b = a)
      ∧ (len a > len b → longest len a b = a)
      ∧ (len b > len a → longest len a b = b) := by
  intro T len a b
  refine ⟨fun h => ?_, fun h => ?_, fun h => ?_⟩
  · simp [longest, le_of_eq h.symm]
  · simp [longest, le_of_lt h]
  · simp [longest, not_le.mpr h]

/-- C10 witness: on concrete lists measured by their length, the tie
[1, 2] versus [3, 4] returns the first, [1, 2, 3] versus [1, 2] returns
the longer first argument, and [1, 2] versus [1, 2, 3] returns the longer
second argument, matching the source example. -/
theorem longest_ties_favor_first_witness :
    longest (fun l : List Int => (l.length : Int)) [1, 2] [3, 4] = [1, 2]
    ∧ longest (fun l : List Int => (l.length : Int)) [1, 2, 3] [1, 2] = [1, 2, 3]
    ∧ longest (fun l : List Int => (l.length : Int)) [1, 2] [1, 2, 3] = [1, 2, 3] :=
  ⟨(longest_ties_favor_first (List Int) (fun l => (l.length : Int)) [1, 2] [3, 4]).1 (by decide),
   (longest_ties_favor_first (List Int) (fun l => (l.length : Int)) [1, 2, 3] [1, 2]).2.1 (by decide),
   (longest_ties_favor_first (List Int) (fun l => (l.length : Int)) [1, 2] [1, 2, 3]).2.2 (by decide)⟩
